import Mathlib

/-!
Shallow embedding of the 2D engine simulator core (`engine_sim/constants.py`,
`engine_sim/sim.py`).  Python floats are modelled as real numbers; the
`contents` dictionary becomes the `Contents` structure; every mutating method
becomes a function returning the updated record.
-/

noncomputable section

/-! ### constants.py -/

def boltzmann_constant : ℝ := 1.380649e-23

def avogadro_constant : ℝ := 6.02214076e23

/-- Named `stoichiometric_air_fuel_ratio` in `constants.py`. -/
def stoich_air_fuel : ℝ := 14.7

def fuel_density : ℝ := 750

def air_molar_mass : ℝ := 0.02897

def fuel_molar_mass : ℝ := 0.11423

def exhaust_molar_mass : ℝ := 0.0286

def fuel_burn_per_second : ℝ := 0.1

def fuel_energy_per_kg : ℝ := 44000

def exhaust_R : ℝ := 287.0

def atmospheric_pressure : ℝ := 101325.0

/-! ### sim.py : Cylinder -/

def ROOM_TEMP : ℝ := 273 + 21

/-- The `contents` dictionary of a cylinder: species masses in kg. -/
structure Contents where
  fuel : ℝ
  air : ℝ
  exhaust : ℝ

/-- State of `Cylinder` (sim.py lines 14-37).  The `mode` display label is kept
as a string exactly as in the source. -/
structure Cylinder where
  radius : ℝ
  height : ℝ
  crank_radius : ℝ
  rod_length : ℝ
  crank_rotation : ℝ
  crank_angular_velocity : ℝ
  temperature : ℝ
  combusting : Bool
  mode : String
  previous_volume : ℝ
  contents : Contents

def Cylinder.fuel_particles (c : Cylinder) : ℝ :=
  (c.contents.fuel / fuel_molar_mass) * avogadro_constant

def Cylinder.air_particles (c : Cylinder) : ℝ :=
  (c.contents.air / air_molar_mass) * avogadro_constant

def Cylinder.exhaust_particles (c : Cylinder) : ℝ :=
  (c.contents.exhaust / exhaust_molar_mass) * avogadro_constant

def Cylinder.rpm (c : Cylinder) : ℝ :=
  (c.crank_angular_velocity * 60.0) / (2.0 * Real.pi)

def Cylinder.stroke (c : Cylinder) : ℝ := 2.0 * c.crank_radius

def Cylinder.crank_position (c : Cylinder) : ℝ × ℝ :=
  (c.crank_radius * Real.sin c.crank_rotation, c.crank_radius * Real.cos c.crank_rotation)

def Cylinder.area (c : Cylinder) : ℝ := Real.pi * c.radius ^ 2

def Cylinder.min_volume (c : Cylinder) : ℝ :=
  (c.height - (c.rod_length + c.crank_radius)) * c.area

def Cylinder.pin_offset (c : Cylinder) : ℝ :=
  c.crank_radius * Real.cos c.crank_rotation +
    Real.sqrt (c.rod_length ^ 2 - c.crank_radius ^ 2 * Real.sin c.crank_rotation ^ 2)

def Cylinder.piston_travel_from_TDC (c : Cylinder) : ℝ :=
  c.crank_radius * Real.cos c.crank_rotation +
    Real.sqrt (max 0.0 (c.rod_length ^ 2 - (c.crank_radius * Real.sin c.crank_rotation) ^ 2)) -
    c.rod_length

def Cylinder.volume (c : Cylinder) : ℝ :=
  c.min_volume + c.piston_travel_from_TDC * c.area

def Cylinder.pressure (c : Cylinder) : ℝ :=
  (c.temperature * boltzmann_constant *
    (c.fuel_particles + c.air_particles + c.exhaust_particles)) / c.volume

def Cylinder.piston_force (c : Cylinder) : ℝ :=
  (c.pressure - atmospheric_pressure) * c.area

def Cylinder.crank_moment (c : Cylinder) : ℝ :=
  c.crank_radius * (c.piston_force * Real.sin c.crank_rotation)

def Cylinder.cp_exhaust (c : Cylinder) : ℝ := 1.08 + 8e-5 * (c.temperature - 300.0)

def Cylinder.cp_air (c : Cylinder) : ℝ := 1.005 + 0.0001 * (c.temperature - 300.0) / 100.0

def Cylinder.average_cp (c : Cylinder) : ℝ :=
  (c.cp_exhaust * c.contents.exhaust + c.cp_air * c.contents.air) /
    (c.contents.exhaust + c.contents.air + 1e-9)

/-- Name-mangled `Cylinder.__apply_angular_velocity` in the source. -/
def Cylinder.apply_angular_velocity (c : Cylinder) (deltaTime : ℝ) : Cylinder :=
  let rot := c.crank_rotation + c.crank_angular_velocity * deltaTime
  { c with crank_rotation := if rot > 4 * Real.pi then rot - 4 * Real.pi else rot }

def Cylinder.spark (c : Cylinder) : Cylinder := { c with combusting := true }

/-- Name-mangled `Cylinder.__combust` in the source (sim.py lines 140-169).
The tuple reassignment of `fuel_quantity` / `air_quantity` when air is the
binding constraint is expressed with two `if` terms over the same test. -/
def Cylinder.combust (c : Cylinder) (deltaTime : ℝ) : Cylinder :=
  if Real.cos c.crank_rotation < 0 then c
  else
    let fq0 := min (fuel_burn_per_second * 0.1 * deltaTime) c.contents.fuel
    let aq0 := fq0 * stoich_air_fuel
    let fuel_quantity := if aq0 > c.contents.air then c.contents.air / stoich_air_fuel else fq0
    let air_quantity := if aq0 > c.contents.air then c.contents.air else aq0
    let mass := fuel_quantity + air_quantity + c.contents.exhaust
    let combustion_energy := fuel_quantity * fuel_energy_per_kg
    if combustion_energy = 0 then { c with combusting := false }
    else if c.average_cp = 0 then { c with combusting := false }
    else
      { c with
        temperature := c.temperature + combustion_energy / (mass * c.average_cp),
        contents :=
          { fuel := c.contents.fuel - fuel_quantity,
            air := c.contents.air - air_quantity,
            exhaust := c.contents.exhaust + (fuel_quantity + air_quantity) } }

def Cylinder.inject (c : Cylinder) (fuel air : ℝ) : Cylinder :=
  { c with contents :=
      { c.contents with fuel := c.contents.fuel + fuel, air := c.contents.air + air } }

/-- `Cylinder.exhaust` (sim.py lines 175-186).  The warning print has no state
effect and is omitted. -/
def Cylinder.exhaust (c : Cylinder) : Cylinder :=
  let max_exhaust_mass := (atmospheric_pressure * c.volume) / (exhaust_R * c.temperature)
  let ex := c.contents.exhaust - max_exhaust_mass
  { c with
    contents := { c.contents with exhaust := if ex < 0 then 0 else ex },
    temperature := 273 + 100 }

/-- `Cylinder.simulate` (sim.py lines 188-206).  The local `ratio` is called
`vr` here. -/
def Cylinder.simulate (c : Cylinder) (deltaTime : ℝ) : Cylinder :=
  let c0 := if c.combusting then c.combust deltaTime else c
  let c1 := c0.apply_angular_velocity deltaTime
  let end_volume := c1.volume
  let gamma : ℝ := 1.4
  let vr := c1.previous_volume / end_volume
  let c2 :=
    if 1e-4 < vr ∧ vr < 1e4 then
      { c1 with temperature := c1.temperature * (max 0.5 (min 2.0 vr)) ^ (gamma - 1) }
    else c1
  let c3 := { c2 with temperature := c2.temperature - (c2.temperature - ROOM_TEMP) * 0.0001 }
  let c4 := { c3 with temperature := max (min c3.temperature 4000) 250 }
  { c4 with previous_volume := end_volume }

/-- `Cylinder.__init__` (sim.py lines 15-37): all cylinders start at rotation 0,
room temperature, empty contents, and `previous_volume` initialised from the
volume at rotation 0. -/
def initCylinder (radius height crank_radius rod_length : ℝ) : Cylinder :=
  let c : Cylinder :=
    { radius := radius, height := height, crank_radius := crank_radius,
      rod_length := rod_length, crank_rotation := 0, crank_angular_velocity := 0,
      temperature := ROOM_TEMP, combusting := false, mode := "N/A",
      previous_volume := 0, contents := { fuel := 0, air := 0, exhaust := 0 } }
  { c with previous_volume := c.volume }

/-- The cylinder constructed by `Engine.__init__`:
`Cylinder(100/1000, 80/1000, 15/1000, 60/1000)`. -/
def engineCylGeometry : Cylinder :=
  initCylinder (100 / 1000) (80 / 1000) (15 / 1000) (60 / 1000)

/-! ### sim.py : Engine -/

/-- State of `Engine` (sim.py lines 209-245).  Configuration attributes are
kept as fields; the construction-time assertion `len(cylinders) ==
len(fire_order)` holds for the concrete `initEngine` below. -/
structure Engine where
  cylinder_radius_mm : ℝ
  cylinder_height_mm : ℝ
  rod_length_mm : ℝ
  crank_radius_mm : ℝ
  crank_mass_kg : ℝ
  starter_torque : ℝ
  friction_coefficient : ℝ
  cylinders : List Cylinder
  cylinder_stages : List ℤ
  fire_order : List ℤ
  last_fire : ℤ
  starter_timer : ℝ
  fuel_volume_per_cycle : ℝ
  idle_fuel_volume_per_cycle : ℝ
  idle_rpm : ℝ
  throttle : ℝ

def Engine.rpm (e : Engine) : ℝ :=
  (e.cylinders.map Cylinder.rpm).sum / (e.cylinders.length : ℝ)

def Engine.moment_of_inertia (e : Engine) : ℝ :=
  e.crank_mass_kg * (e.crank_radius_mm / 1000) ^ 2

def Engine.run_starter (e : Engine) (deltaTime : ℝ) : Engine :=
  let angular_acceleration := e.starter_torque / e.moment_of_inertia
  { e with cylinders := e.cylinders.map fun c =>
      { c with crank_angular_velocity :=
          c.crank_angular_velocity + angular_acceleration * deltaTime } }

def Engine.start (e : Engine) : Engine := { e with starter_timer := 10.0 }

/-- Python float modulo `x % m` (sign follows the divisor). -/
def pymod (x m : ℝ) : ℝ := x - m * ⌊x / m⌋

/-- Stage computation of sim.py line 283:
`(fire_order[idx] + ((rotation % (4π)) // π)) % 4`.  The value is a float in
the source but always integral; it is modelled as an integer. -/
def stageOf (fo : ℤ) (rot : ℝ) : ℤ :=
  (fo + ⌊pymod rot (4 * Real.pi) / Real.pi⌋) % 4

/-- One arm of the `match stage` in `Engine.do_computer` (sim.py 288-305). -/
def applyStageAction (c : Cylinder) (stage : ℤ) (fuel_volume : ℝ) : Cylinder :=
  if stage = 0 then
    Cylinder.inject { c with mode := "INJECT" } fuel_volume (fuel_volume * stoich_air_fuel)
  else if stage = 1 then { c with mode := "COMPRESS" }
  else if stage = 2 then Cylinder.spark { c with mode := "COMBUST" }
  else if stage = 3 then Cylinder.exhaust { c with mode := "EXHAUST" }
  else c

/-- The `for idx, cylinder in enumerate(self.cylinders)` loop of
`Engine.do_computer` (sim.py 282-305).  The `continue` moves to the next
cylinder; crucially, the `break` at the end of every `match` arm exits the
whole `for` loop, so once any cylinder fires an action the remaining
cylinders are left untouched — both the remaining cylinders and their stored
stages are returned unchanged. -/
def computerLoop (fuel_volume : ℝ) :
    List Cylinder → List ℤ → List ℤ → List Cylinder × List ℤ
  | c :: cs, st :: sts, fo :: fos =>
      let stage := stageOf fo c.crank_rotation
      if st = stage ∧ stage ≠ 3 then
        let rest := computerLoop fuel_volume cs sts fos
        (c :: rest.1, st :: rest.2)
      else
        (applyStageAction c stage fuel_volume :: cs, stage :: sts)
  | cs, sts, _ => (cs, sts)

/-- The starter block at the top of `Engine.do_computer` (sim.py 272-276). -/
def Engine.starterPhase (e : Engine) (deltaTime : ℝ) : Engine :=
  if e.starter_timer > 0 then
    { e.run_starter deltaTime with starter_timer := e.starter_timer - deltaTime }
  else e

/-- Fuel dosing of sim.py 278-280: throttle-modulated, overridden to the idle
quantity when the average rpm is below the idle threshold. -/
def Engine.governedFuelVolume (e : Engine) : ℝ :=
  if e.rpm < e.idle_rpm then e.idle_fuel_volume_per_cycle
  else e.fuel_volume_per_cycle * e.throttle

def Engine.do_computer (e : Engine) (deltaTime : ℝ) : Engine :=
  let e1 := e.starterPhase deltaTime
  let p := computerLoop e1.governedFuelVolume e1.cylinders e1.cylinder_stages e1.fire_order
  { e1 with cylinders := p.1, cylinder_stages := p.2 }

/-- `Engine.simulate` (sim.py 308-324).  The crank-movement print has no state
effect and is omitted; the per-cylinder velocity update `v += a*dt; v *= μ`
is `(v + a*dt) * μ`. -/
def Engine.simulate (e : Engine) (deltaTime : ℝ) : Engine :=
  let e1 := e.do_computer deltaTime
  let cyls := e1.cylinders.map fun c => c.simulate deltaTime
  let crank_moment := (cyls.map Cylinder.crank_moment).sum
  let angular_acceleration := crank_moment / e1.moment_of_inertia
  { e1 with cylinders := cyls.map fun c =>
      { c with crank_angular_velocity :=
          (c.crank_angular_velocity + angular_acceleration * deltaTime) *
            e1.friction_coefficient } }

/-- Initial phase offset assigned by `Engine.__prepare_cylinders`:
`i * ((4π) / len(cylinders)) + π/8` with four cylinders. -/
def initRotation (i : ℝ) : ℝ := i * ((4 * Real.pi) / 4) + Real.pi / 8

/-- `Engine.__init__` (sim.py 210-245) for the fixed four-cylinder engine,
with the `__prepare_cylinders` loop unrolled over the four identical
constructor calls.  `cylinder_stages` is the copy of `fire_order` made on
line 252. -/
def initEngine : Engine :=
  let base := engineCylGeometry
  { cylinder_radius_mm := 100, cylinder_height_mm := 80, rod_length_mm := 60,
    crank_radius_mm := 15, crank_mass_kg := 2,
    starter_torque := 0.8, friction_coefficient := 0.8,
    cylinders :=
      [{ base with crank_rotation := initRotation 0 },
       { base with crank_rotation := initRotation 1 },
       { base with crank_rotation := initRotation 2 },
       { base with crank_rotation := initRotation 3 }],
    cylinder_stages := [0, 2, 3, 1],
    fire_order := [0, 2, 3, 1],
    last_fire := 3, starter_timer := 0,
    fuel_volume_per_cycle := 0.001, idle_fuel_volume_per_cycle := 0.000001,
    idle_rpm := 1000, throttle := 0 }

/-! ### Command sequences -/

/-- External commands a cylinder can receive between steps. -/
inductive CylCommand where
  | inject : ℝ → ℝ → CylCommand
  | spark : CylCommand
  | exhaust : CylCommand
  | simulate : ℝ → CylCommand

def Cylinder.applyCommand (c : Cylinder) : CylCommand → Cylinder
  | .inject f a => c.inject f a
  | .spark => c.spark
  | .exhaust => c.exhaust
  | .simulate dt => c.simulate dt

def runCommands (c : Cylinder) (cmds : List CylCommand) : Cylinder :=
  cmds.foldl Cylinder.applyCommand c

/-- External operations the driving loop performs on the engine. -/
inductive EngineOp where
  | start : EngineOp
  | simulate : ℝ → EngineOp

def Engine.applyOp (e : Engine) : EngineOp → Engine
  | .start => e.start
  | .simulate dt => e.simulate dt

def runEngine (e : Engine) (ops : List EngineOp) : Engine :=
  ops.foldl Engine.applyOp e

/-! ### Projection lemmas for the cylinder operations -/

@[simp] lemma Cylinder.combust_crank_rotation (c : Cylinder) (dt : ℝ) :
    (c.combust dt).crank_rotation = c.crank_rotation := by
  unfold Cylinder.combust; dsimp only; split_ifs <;> rfl

@[simp] lemma Cylinder.combust_crank_angular_velocity (c : Cylinder) (dt : ℝ) :
    (c.combust dt).crank_angular_velocity = c.crank_angular_velocity := by
  unfold Cylinder.combust; dsimp only; split_ifs <;> rfl

@[simp] lemma Cylinder.combust_previous_volume (c : Cylinder) (dt : ℝ) :
    (c.combust dt).previous_volume = c.previous_volume := by
  unfold Cylinder.combust; dsimp only; split_ifs <;> rfl

@[simp] lemma Cylinder.combust_radius (c : Cylinder) (dt : ℝ) :
    (c.combust dt).radius = c.radius := by
  unfold Cylinder.combust; dsimp only; split_ifs <;> rfl

@[simp] lemma Cylinder.combust_height (c : Cylinder) (dt : ℝ) :
    (c.combust dt).height = c.height := by
  unfold Cylinder.combust; dsimp only; split_ifs <;> rfl

@[simp] lemma Cylinder.combust_crank_radius (c : Cylinder) (dt : ℝ) :
    (c.combust dt).crank_radius = c.crank_radius := by
  unfold Cylinder.combust; dsimp only; split_ifs <;> rfl

@[simp] lemma Cylinder.combust_rod_length (c : Cylinder) (dt : ℝ) :
    (c.combust dt).rod_length = c.rod_length := by
  unfold Cylinder.combust; dsimp only; split_ifs <;> rfl

@[simp] lemma Cylinder.combust_volume (c : Cylinder) (dt : ℝ) :
    (c.combust dt).volume = c.volume := by
  simp [Cylinder.volume, Cylinder.min_volume, Cylinder.area, Cylinder.piston_travel_from_TDC]

@[simp] lemma Cylinder.aav_crank_angular_velocity (c : Cylinder) (dt : ℝ) :
    (c.apply_angular_velocity dt).crank_angular_velocity = c.crank_angular_velocity := rfl

@[simp] lemma Cylinder.aav_temperature (c : Cylinder) (dt : ℝ) :
    (c.apply_angular_velocity dt).temperature = c.temperature := rfl

@[simp] lemma Cylinder.aav_contents (c : Cylinder) (dt : ℝ) :
    (c.apply_angular_velocity dt).contents = c.contents := rfl

@[simp] lemma Cylinder.aav_previous_volume (c : Cylinder) (dt : ℝ) :
    (c.apply_angular_velocity dt).previous_volume = c.previous_volume := rfl

@[simp] lemma Cylinder.aav_radius (c : Cylinder) (dt : ℝ) :
    (c.apply_angular_velocity dt).radius = c.radius := rfl

@[simp] lemma Cylinder.aav_height (c : Cylinder) (dt : ℝ) :
    (c.apply_angular_velocity dt).height = c.height := rfl

@[simp] lemma Cylinder.aav_crank_radius (c : Cylinder) (dt : ℝ) :
    (c.apply_angular_velocity dt).crank_radius = c.crank_radius := rfl

@[simp] lemma Cylinder.aav_rod_length (c : Cylinder) (dt : ℝ) :
    (c.apply_angular_velocity dt).rod_length = c.rod_length := rfl

lemma Cylinder.aav_crank_rotation (c : Cylinder) (dt : ℝ) :
    (c.apply_angular_velocity dt).crank_rotation =
      if c.crank_rotation + c.crank_angular_velocity * dt > 4 * Real.pi
      then c.crank_rotation + c.crank_angular_velocity * dt - 4 * Real.pi
      else c.crank_rotation + c.crank_angular_velocity * dt := rfl

@[simp] lemma Cylinder.exhaust_contents_fuel (c : Cylinder) :
    c.exhaust.contents.fuel = c.contents.fuel := rfl

@[simp] lemma Cylinder.exhaust_contents_air (c : Cylinder) :
    c.exhaust.contents.air = c.contents.air := rfl

@[simp] lemma Cylinder.exhaust_temperature (c : Cylinder) :
    c.exhaust.temperature = 273 + 100 := rfl

@[simp] lemma Cylinder.exhaust_crank_angular_velocity (c : Cylinder) :
    c.exhaust.crank_angular_velocity = c.crank_angular_velocity := rfl

lemma Cylinder.exhaust_contents_exhaust (c : Cylinder) :
    c.exhaust.contents.exhaust =
      if c.contents.exhaust - (atmospheric_pressure * c.volume) / (exhaust_R * c.temperature) < 0
      then 0
      else c.contents.exhaust -
        (atmospheric_pressure * c.volume) / (exhaust_R * c.temperature) := rfl

@[simp] lemma Cylinder.inject_contents_fuel (c : Cylinder) (f a : ℝ) :
    (c.inject f a).contents.fuel = c.contents.fuel + f := rfl

@[simp] lemma Cylinder.inject_contents_air (c : Cylinder) (f a : ℝ) :
    (c.inject f a).contents.air = c.contents.air + a := rfl

@[simp] lemma Cylinder.inject_contents_exhaust (c : Cylinder) (f a : ℝ) :
    (c.inject f a).contents.exhaust = c.contents.exhaust := rfl

@[simp] lemma Cylinder.inject_crank_angular_velocity (c : Cylinder) (f a : ℝ) :
    (c.inject f a).crank_angular_velocity = c.crank_angular_velocity := rfl

@[simp] lemma Cylinder.spark_contents (c : Cylinder) : c.spark.contents = c.contents := rfl

@[simp] lemma Cylinder.spark_crank_angular_velocity (c : Cylinder) :
    c.spark.crank_angular_velocity = c.crank_angular_velocity := rfl

lemma Cylinder.simulate_crank_angular_velocity (c : Cylinder) (dt : ℝ) :
    (c.simulate dt).crank_angular_velocity = c.crank_angular_velocity := by
  unfold Cylinder.simulate
  dsimp only
  split_ifs <;> simp

lemma Cylinder.simulate_crank_rotation (c : Cylinder) (dt : ℝ) :
    (c.simulate dt).crank_rotation =
      if c.crank_rotation + c.crank_angular_velocity * dt > 4 * Real.pi
      then c.crank_rotation + c.crank_angular_velocity * dt - 4 * Real.pi
      else c.crank_rotation + c.crank_angular_velocity * dt := by
  have h : (c.simulate dt).crank_rotation =
      ((if c.combusting then c.combust dt else c).apply_angular_velocity dt).crank_rotation := by
    unfold Cylinder.simulate
    dsimp only
    split_ifs <;> rfl
  rw [h]
  cases hb : c.combusting <;> rw [Cylinder.aav_crank_rotation] <;> simp

lemma Cylinder.simulate_contents (c : Cylinder) (dt : ℝ) :
    (c.simulate dt).contents =
      (if c.combusting then c.combust dt else c).contents := by
  unfold Cylinder.simulate
  dsimp only
  split_ifs <;> simp

lemma Cylinder.simulate_previous_volume (c : Cylinder) (dt : ℝ) :
    (c.simulate dt).previous_volume =
      ((if c.combusting then c.combust dt else c).apply_angular_velocity dt).volume := by
  unfold Cylinder.simulate
  dsimp only

lemma Cylinder.simulate_temperature_mem (c : Cylinder) (dt : ℝ) :
    250 ≤ (c.simulate dt).temperature ∧ (c.simulate dt).temperature ≤ 4000 := by
  unfold Cylinder.simulate
  dsimp only
  exact ⟨le_max_right _ _, max_le (min_le_right _ _) (by norm_num)⟩

/-- C6: after every `Cylinder.simulate` call — whatever sequence of
inject/spark/exhaust/simulate commands preceded it, and for any delta-time,
including 0 and arbitrarily large values — the cylinder temperature lies in
[250, 4000] K, because the final statement of `simulate` clamps it
unconditionally. -/
theorem temperature_always_clamped (c : Cylinder) (cmds : List CylCommand) (dt : ℝ) :
    ((runCommands c cmds).simulate dt).temperature ∈ Set.Icc (250 : ℝ) 4000 := by
  rw [Set.mem_Icc]
  exact Cylinder.simulate_temperature_mem _ _

/-! ### The cylinder geometry used by `Engine.__init__` -/

@[simp] lemma engineCylGeometry_radius : engineCylGeometry.radius = 100 / 1000 := rfl

@[simp] lemma engineCylGeometry_height : engineCylGeometry.height = 80 / 1000 := rfl

@[simp] lemma engineCylGeometry_crank_radius : engineCylGeometry.crank_radius = 15 / 1000 := rfl

@[simp] lemma engineCylGeometry_rod_length : engineCylGeometry.rod_length = 60 / 1000 := rfl

@[simp] lemma engineCylGeometry_crank_rotation : engineCylGeometry.crank_rotation = 0 := rfl

@[simp] lemma engineCylGeometry_crank_angular_velocity :
    engineCylGeometry.crank_angular_velocity = 0 := rfl

@[simp] lemma engineCylGeometry_temperature : engineCylGeometry.temperature = ROOM_TEMP := rfl

@[simp] lemma engineCylGeometry_combusting : engineCylGeometry.combusting = false := rfl

@[simp] lemma engineCylGeometry_contents_fuel : engineCylGeometry.contents.fuel = 0 := rfl

@[simp] lemma engineCylGeometry_contents_air : engineCylGeometry.contents.air = 0 := rfl

@[simp] lemma engineCylGeometry_contents_exhaust : engineCylGeometry.contents.exhaust = 0 := rfl

/-! ### C5 : crank-rotation wrap -/

/-- A cylinder of the engine geometry whose shaft spins backwards at 1 rad/s. -/
def reverseSpinCyl : Cylinder := { engineCylGeometry with crank_angular_velocity := -1 }

/-- C5 counterexample: a `simulate` step of one second with angular velocity
−1 rad/s leaves the crank rotation at −1, outside [0, 4π): the integration
only subtracts 4π when the advanced value exceeds 4π and never wraps negative
values up. -/
theorem rotation_wrap_counterexample :
    (reverseSpinCyl.simulate 1).crank_rotation = -1 ∧
    (reverseSpinCyl.simulate 1).crank_rotation < 0 := by
  have hrot : reverseSpinCyl.crank_rotation = 0 := rfl
  have hvel : reverseSpinCyl.crank_angular_velocity = -1 := rfl
  have h : (reverseSpinCyl.simulate 1).crank_rotation = -1 := by
    rw [Cylinder.simulate_crank_rotation, hrot, hvel]
    have hπ := Real.pi_pos
    rw [if_neg (by push_neg; nlinarith)]
    ring
  exact ⟨h, by rw [h]; norm_num⟩

/-- C5 (amended): the per-step integration advances the rotation by angular
velocity × dt and subtracts 4π once when the result strictly exceeds 4π.
Whenever the advanced value lies in [0, 8π] the post-step rotation lies in
[0, 4π] (4π itself is attainable since the comparison is strict); negative
advances and advances beyond 8π escape this range. -/
theorem rotation_wrap_amended (c : Cylinder) (dt : ℝ)
    (h1 : 0 ≤ c.crank_rotation + c.crank_angular_velocity * dt)
    (h2 : c.crank_rotation + c.crank_angular_velocity * dt ≤ 8 * Real.pi) :
    (c.simulate dt).crank_rotation ∈ Set.Icc 0 (4 * Real.pi) := by
  rw [Set.mem_Icc, Cylinder.simulate_crank_rotation]
  split_ifs with h
  · constructor <;> linarith
  · exact ⟨h1, not_lt.mp h⟩

theorem rotation_wrap_amended_witness :
    (0 ≤ engineCylGeometry.crank_rotation + engineCylGeometry.crank_angular_velocity * 0 ∧
      engineCylGeometry.crank_rotation + engineCylGeometry.crank_angular_velocity * 0 ≤
        8 * Real.pi) ∧
    (engineCylGeometry.simulate 0).crank_rotation ∈ Set.Icc 0 (4 * Real.pi) :=
  ⟨⟨by simp, by simp; positivity⟩,
    rotation_wrap_amended engineCylGeometry 0 (by simp) (by simp; positivity)⟩

/-! ### C10 : a dt = 0 step still relaxes the temperature -/

lemma Cylinder.volume_congr {c d : Cylinder} (h1 : c.radius = d.radius)
    (h2 : c.height = d.height) (h3 : c.crank_radius = d.crank_radius)
    (h4 : c.rod_length = d.rod_length) (h5 : c.crank_rotation = d.crank_rotation) :
    c.volume = d.volume := by
  unfold Cylinder.volume Cylinder.min_volume Cylinder.area Cylinder.piston_travel_from_TDC
  rw [h1, h2, h3, h4, h5]

lemma Cylinder.combust_zero_dt (c : Cylinder) (hf : 0 ≤ c.contents.fuel)
    (ha : 0 ≤ c.contents.air) :
    (c.combust 0).contents = c.contents ∧ (c.combust 0).temperature = c.temperature := by
  unfold Cylinder.combust
  dsimp only
  constructor <;>
    simp [mul_zero, min_eq_left hf, zero_mul, if_neg (not_lt.mpr ha), apply_ite, ite_self]

lemma Cylinder.simulate_temperature_eq (c : Cylinder) (dt : ℝ) :
    (c.simulate dt).temperature =
      (let c1 := (if c.combusting then c.combust dt else c).apply_angular_velocity dt
       let vr := c1.previous_volume / c1.volume
       let t2 := if 1e-4 < vr ∧ vr < 1e4
                 then c1.temperature * (max 0.5 (min 2.0 vr)) ^ ((1.4 : ℝ) - 1)
                 else c1.temperature
       max (min (t2 - (t2 - ROOM_TEMP) * 0.0001) 4000) 250) := by
  unfold Cylinder.simulate
  dsimp only
  split_ifs <;> rfl

lemma clamp_relax_ne (T : ℝ) (h : T ≠ ROOM_TEMP) :
    max (min (T - (T - ROOM_TEMP) * 0.0001) 4000) 250 ≠ T := by
  have hR : ROOM_TEMP = 294 := by norm_num [ROOM_TEMP]
  rw [hR] at h ⊢
  rcases lt_or_gt_of_ne h with h1 | h1
  · apply ne_of_gt
    rcases le_or_lt (T - (T - 294) * 0.0001) 4000 with h2 | h2
    · rw [min_eq_left h2]
      exact lt_of_lt_of_le (by linarith) (le_max_left _ _)
    · rw [min_eq_right h2.le, max_eq_left (by norm_num)]
      linarith
  · apply ne_of_lt
    apply max_lt
    · exact lt_of_le_of_lt (min_le_left _ _) (by linarith)
    · linarith

/-- C10: a `Cylinder.simulate` call with dt = 0 — from any state whose
rotation is within the wrap bound, whose `previous_volume` matches the
current volume (as after any earlier `simulate`), and whose fuel/air masses
are non-negative — leaves the crank rotation, the species masses and
`previous_volume` unchanged, yet still changes the temperature whenever it
differs from ambient: the ambient-relaxation (rate 0.0001 per call) and the
clamp are applied per call, not per unit of simulated time. -/
theorem zero_dt_step (c : Cylinder)
    (hrot : c.crank_rotation ≤ 4 * Real.pi)
    (hprev : c.previous_volume = c.volume)
    (hf : 0 ≤ c.contents.fuel) (ha : 0 ≤ c.contents.air)
    (hT : c.temperature ≠ ROOM_TEMP) :
    (c.simulate 0).crank_rotation = c.crank_rotation ∧
    (c.simulate 0).contents = c.contents ∧
    (c.simulate 0).previous_volume = c.previous_volume ∧
    (c.simulate 0).temperature ≠ c.temperature := by
  have hvol : ((if c.combusting then c.combust 0 else c).apply_angular_velocity 0).volume
      = c.volume := by
    apply Cylinder.volume_congr <;> cases hb : c.combusting <;>
      simp [hb, Cylinder.aav_crank_rotation, mul_zero, add_zero, if_neg (not_lt.mpr hrot)]
  have hprev1 : ((if c.combusting then c.combust 0 else c).apply_angular_velocity 0).previous_volume
      = c.previous_volume := by
    cases hb : c.combusting <;> simp [hb]
  have htemp1 : ((if c.combusting then c.combust 0 else c).apply_angular_velocity 0).temperature
      = c.temperature := by
    cases hb : c.combusting <;> simp [hb, (Cylinder.combust_zero_dt c hf ha).2]
  refine ⟨?_, ?_, ?_, ?_⟩
  · rw [Cylinder.simulate_crank_rotation, mul_zero, add_zero, if_neg (not_lt.mpr hrot)]
  · rw [Cylinder.simulate_contents]
    cases hb : c.combusting
    · simp
    · simp [(Cylinder.combust_zero_dt c hf ha).1]
  · rw [Cylinder.simulate_previous_volume, hvol, ← hprev]
  · rw [Cylinder.simulate_temperature_eq]
    dsimp only
    rw [htemp1, hprev1, hvol, hprev]
    rcases eq_or_ne c.volume 0 with hv | hv
    · rw [hv, div_zero, if_neg (by norm_num)]
      exact clamp_relax_ne _ hT
    · rw [div_self hv, if_pos (by norm_num)]
      have hone : (max 0.5 (min 2.0 (1 : ℝ))) ^ ((1.4 : ℝ) - 1) = 1 := by
        rw [min_eq_right (by norm_num), max_eq_right (by norm_num), Real.one_rpow]
      rw [hone, mul_one]
      exact clamp_relax_ne _ hT

/-- A steady cylinder of the engine geometry at 300 K whose previous volume
agrees with the current volume, as after any earlier `simulate` call. -/
def steadyCyl : Cylinder :=
  let c := { engineCylGeometry with temperature := 300 }
  { c with previous_volume := c.volume }

theorem zero_dt_step_witness :
    (steadyCyl.crank_rotation ≤ 4 * Real.pi ∧ steadyCyl.previous_volume = steadyCyl.volume ∧
      0 ≤ steadyCyl.contents.fuel ∧ 0 ≤ steadyCyl.contents.air ∧
      steadyCyl.temperature ≠ ROOM_TEMP) ∧
    ((steadyCyl.simulate 0).crank_rotation = steadyCyl.crank_rotation ∧
      (steadyCyl.simulate 0).contents = steadyCyl.contents ∧
      (steadyCyl.simulate 0).previous_volume = steadyCyl.previous_volume ∧
      (steadyCyl.simulate 0).temperature ≠ steadyCyl.temperature) := by
  have h0 : steadyCyl.crank_rotation = 0 := rfl
  have hrot : steadyCyl.crank_rotation ≤ 4 * Real.pi := by rw [h0]; positivity
  have hprev : steadyCyl.previous_volume = steadyCyl.volume := rfl
  have hT : steadyCyl.temperature ≠ ROOM_TEMP := by
    have h3 : steadyCyl.temperature = 300 := rfl
    rw [h3]; norm_num [ROOM_TEMP]
  exact ⟨⟨hrot, hprev, le_refl 0, le_refl 0, hT⟩,
    zero_dt_step steadyCyl hrot hprev (le_refl 0) (le_refl 0) hT⟩

/-! ### C7 : species masses -/

/-- All three species masses of a cylinder are non-negative. -/
def ContentsNonneg (c : Cylinder) : Prop :=
  0 ≤ c.contents.fuel ∧ 0 ≤ c.contents.air ∧ 0 ≤ c.contents.exhaust

/-- Commands as the engine issues them: injected masses are non-negative and
simulated time steps are non-negative. -/
def WellFormedCommand : CylCommand → Prop
  | .inject f a => 0 ≤ f ∧ 0 ≤ a
  | .simulate dt => 0 ≤ dt
  | _ => True

lemma Cylinder.combust_nonneg (c : Cylinder) (dt : ℝ) (h : ContentsNonneg c) (hdt : 0 ≤ dt) :
    ContentsNonneg (c.combust dt) := by
  obtain ⟨hf, ha, he⟩ := h
  have hS : (0 : ℝ) < stoich_air_fuel := by norm_num [stoich_air_fuel]
  have hq0 : 0 ≤ min (fuel_burn_per_second * 0.1 * dt) c.contents.fuel :=
    le_min (mul_nonneg (by norm_num [fuel_burn_per_second]) hdt) hf
  have hqle : min (fuel_burn_per_second * 0.1 * dt) c.contents.fuel ≤ c.contents.fuel :=
    min_le_right _ _
  unfold Cylinder.combust
  dsimp only
  split_ifs with h1 h2 h3 h4 h5 h6
  all_goals try exact ⟨hf, ha, he⟩
  · -- air is the binding constraint
    have key : c.contents.air / stoich_air_fuel ≤
        min (fuel_burn_per_second * 0.1 * dt) c.contents.fuel :=
      le_of_lt ((div_lt_iff₀ hS).mpr (by linarith))
    have hdiv : 0 ≤ c.contents.air / stoich_air_fuel := div_nonneg ha hS.le
    exact ⟨by dsimp only; linarith, by dsimp only; linarith, by dsimp only; linarith⟩
  · -- fuel is the binding constraint
    have hair : min (fuel_burn_per_second * 0.1 * dt) c.contents.fuel * stoich_air_fuel ≤
        c.contents.air := not_lt.mp h2
    have hmulS : 0 ≤ min (fuel_burn_per_second * 0.1 * dt) c.contents.fuel * stoich_air_fuel :=
      mul_nonneg hq0 hS.le
    exact ⟨by dsimp only; linarith, by dsimp only; linarith, by dsimp only; linarith⟩

lemma Cylinder.applyCommand_nonneg (c : Cylinder) (cmd : CylCommand) (h : ContentsNonneg c)
    (hw : WellFormedCommand cmd) : ContentsNonneg (c.applyCommand cmd) := by
  obtain ⟨hf, ha, he⟩ := h
  cases cmd with
  | inject f a =>
      obtain ⟨h1, h2⟩ := hw
      exact ⟨by simp [Cylinder.applyCommand]; linarith,
        by simp [Cylinder.applyCommand]; linarith,
        by simp [Cylinder.applyCommand]; linarith⟩
  | spark => exact ⟨by simpa [Cylinder.applyCommand] using hf,
      by simpa [Cylinder.applyCommand] using ha,
      by simpa [Cylinder.applyCommand] using he⟩
  | exhaust =>
      refine ⟨by simpa [Cylinder.applyCommand] using hf,
        by simpa [Cylinder.applyCommand] using ha, ?_⟩
      show 0 ≤ (Cylinder.exhaust c).contents.exhaust
      rw [Cylinder.exhaust_contents_exhaust]
      split_ifs with hcl
      · exact le_refl 0
      · exact not_lt.mp hcl
  | simulate dt =>
      have hc : (c.applyCommand (.simulate dt)).contents =
          (if c.combusting then c.combust dt else c).contents :=
        Cylinder.simulate_contents c dt
      cases hb : c.combusting
      · rw [hb] at hc
        simp only [if_neg Bool.false_ne_true] at hc
        exact ⟨by rw [show (c.applyCommand (.simulate dt)).contents.fuel = c.contents.fuel
            from congrArg Contents.fuel hc]; exact hf,
          by rw [show (c.applyCommand (.simulate dt)).contents.air = c.contents.air
            from congrArg Contents.air hc]; exact ha,
          by rw [show (c.applyCommand (.simulate dt)).contents.exhaust = c.contents.exhaust
            from congrArg Contents.exhaust hc]; exact he⟩
      · rw [hb] at hc
        simp only [if_pos] at hc
        have hcmb := Cylinder.combust_nonneg c dt ⟨hf, ha, he⟩ hw
        exact ⟨by rw [show (c.applyCommand (.simulate dt)).contents.fuel =
              (c.combust dt).contents.fuel from congrArg Contents.fuel hc]; exact hcmb.1,
          by rw [show (c.applyCommand (.simulate dt)).contents.air =
              (c.combust dt).contents.air from congrArg Contents.air hc]; exact hcmb.2.1,
          by rw [show (c.applyCommand (.simulate dt)).contents.exhaust =
              (c.combust dt).contents.exhaust from congrArg Contents.exhaust hc]; exact hcmb.2.2⟩

/-- C7 counterexample: a single `inject` call with a negative fuel mass drives
the fuel pool to −1 kg — `inject` applies no clamp after its mutation, so the
species masses are not kept non-negative over arbitrary call sequences. -/
theorem masses_nonneg_counterexample :
    (runCommands engineCylGeometry [CylCommand.inject (-1) 0]).contents.fuel = -1 ∧
    (runCommands engineCylGeometry [CylCommand.inject (-1) 0]).contents.fuel < 0 := by
  have h : (runCommands engineCylGeometry [CylCommand.inject (-1) 0]).contents.fuel = -1 := by
    show (engineCylGeometry.inject (-1) 0).contents.fuel = -1
    rw [Cylinder.inject_contents_fuel, engineCylGeometry_contents_fuel]
    ring
  exact ⟨h, by rw [h]; norm_num⟩

/-- C7 (amended): provided every `inject` passes non-negative masses and every
`simulate` a non-negative delta-time, all three species masses stay ≥ 0 after
any sequence of inject / spark / simulate (combustion) / exhaust calls from a
state with non-negative masses.  Nonnegativity comes from capping the burned
quantities at the available pools and clamping the exhaust pool inside
`exhaust`; the masses are not re-clamped after every mutation (`inject` has no
clamp at all). -/
theorem masses_nonneg_amended (c : Cylinder) (cmds : List CylCommand)
    (h : ContentsNonneg c) (hw : ∀ cmd ∈ cmds, WellFormedCommand cmd) :
    ContentsNonneg (runCommands c cmds) := by
  induction cmds generalizing c with
  | nil => exact h
  | cons x xs ih =>
      exact ih (c.applyCommand x) (Cylinder.applyCommand_nonneg c x h (hw x (by simp)))
        (fun cmd hc => hw cmd (List.mem_cons_of_mem x hc))

theorem masses_nonneg_amended_witness :
    (ContentsNonneg engineCylGeometry ∧
      ∀ cmd ∈ [CylCommand.inject 0.001 0.0147, CylCommand.spark,
        CylCommand.simulate 0.01, CylCommand.exhaust], WellFormedCommand cmd) ∧
    ContentsNonneg (runCommands engineCylGeometry
      [CylCommand.inject 0.001 0.0147, CylCommand.spark,
        CylCommand.simulate 0.01, CylCommand.exhaust]) := by
  have h : ContentsNonneg engineCylGeometry := ⟨le_refl 0, le_refl 0, le_refl 0⟩
  have hw : ∀ cmd ∈ [CylCommand.inject 0.001 0.0147, CylCommand.spark,
      CylCommand.simulate 0.01, CylCommand.exhaust], WellFormedCommand cmd := by
    intro cmd hc
    fin_cases hc <;> norm_num [WellFormedCommand]
  exact ⟨⟨h, hw⟩, masses_nonneg_amended engineCylGeometry _ h hw⟩

/-! ### C1 / C2 : piston travel and volume at the engine geometry -/

/-- The engine-geometry cylinder at crank rotation π (bottom dead center)
holding one gram of air. -/
def bdcCyl : Cylinder :=
  { engineCylGeometry with
    crank_rotation := Real.pi
    contents := { fuel := 0, air := 0.001, exhaust := 0 } }

lemma travel_at_tdc : engineCylGeometry.piston_travel_from_TDC = 15 / 1000 := by
  unfold Cylinder.piston_travel_from_TDC
  rw [engineCylGeometry_crank_rotation, engineCylGeometry_crank_radius,
    engineCylGeometry_rod_length, Real.cos_zero, Real.sin_zero]
  rw [show ((60 / 1000 : ℝ)) ^ 2 - ((15 / 1000) * 0) ^ 2 = ((60 : ℝ) / 1000) ^ 2 from by ring]
  rw [max_eq_right (by norm_num), Real.sqrt_sq (by norm_num)]
  ring

lemma travel_at_bdc : bdcCyl.piston_travel_from_TDC = -(15 / 1000) := by
  have h1 : bdcCyl.crank_rotation = Real.pi := rfl
  have h2 : bdcCyl.crank_radius = 15 / 1000 := rfl
  have h3 : bdcCyl.rod_length = 60 / 1000 := rfl
  unfold Cylinder.piston_travel_from_TDC
  rw [h1, h2, h3, Real.cos_pi, Real.sin_pi]
  rw [show ((60 / 1000 : ℝ)) ^ 2 - ((15 / 1000) * 0) ^ 2 = ((60 : ℝ) / 1000) ^ 2 from by ring]
  rw [max_eq_right (by norm_num), Real.sqrt_sq (by norm_num)]
  ring

lemma bdc_volume : bdcCyl.volume = -(Real.pi / 10000) := by
  have h1 : bdcCyl.radius = 100 / 1000 := rfl
  have h2 : bdcCyl.height = 80 / 1000 := rfl
  have h3 : bdcCyl.crank_radius = 15 / 1000 := rfl
  have h4 : bdcCyl.rod_length = 60 / 1000 := rfl
  unfold Cylinder.volume Cylinder.min_volume Cylinder.area
  rw [travel_at_bdc, h1, h2, h3, h4]
  ring

/-- C2: the code's `piston_travel_from_TDC` has its sign reversed relative to
the claim: for the engine geometry it equals +crank_radius = 0.015 at
rotation 0 (the claim requires 0 at top dead center), it is negative at
rotation π (the claim requires non-negativity and a maximum near π), and the
resulting volume at π falls below `min_volume`, violating the claimed range
[min_volume, min_volume + 2·crank_radius·area]. -/
theorem piston_travel_sign_error :
    engineCylGeometry.piston_travel_from_TDC = 15 / 1000 ∧
    engineCylGeometry.piston_travel_from_TDC ≠ 0 ∧
    bdcCyl.piston_travel_from_TDC < 0 ∧
    bdcCyl.volume < bdcCyl.min_volume := by
  have hπ := Real.pi_pos
  refine ⟨travel_at_tdc, ?_, ?_, ?_⟩
  · rw [travel_at_tdc]; norm_num
  · rw [travel_at_bdc]; norm_num
  · rw [bdc_volume]
    have hmv : bdcCyl.min_volume = Real.pi / 20000 := by
      have h1 : bdcCyl.radius = 100 / 1000 := rfl
      have h2 : bdcCyl.height = 80 / 1000 := rfl
      have h3 : bdcCyl.crank_radius = 15 / 1000 := rfl
      have h4 : bdcCyl.rod_length = 60 / 1000 := rfl
      unfold Cylinder.min_volume Cylinder.area
      rw [h1, h2, h3, h4]; ring
    rw [hmv]; linarith

/-- C1: pressure is not protected against zero or negative volume: at the
reachable rotation π the engine-geometry cylinder's volume is negative (only
the square-root radicand is clamped, not the volume), so with one gram of air
at room temperature the ideal-gas pressure evaluates negative, contradicting
the claim that zero/negative-volume faults are clamped away. -/
theorem pressure_negative_at_bdc :
    bdcCyl.volume < 0 ∧ bdcCyl.pressure < 0 := by
  have hπ := Real.pi_pos
  have hv : bdcCyl.volume < 0 := by rw [bdc_volume]; linarith
  refine ⟨hv, ?_⟩
  unfold Cylinder.pressure
  apply div_neg_of_pos_of_neg _ hv
  have hT : bdcCyl.temperature = ROOM_TEMP := rfl
  have hcf : bdcCyl.contents.fuel = 0 := rfl
  have hca : bdcCyl.contents.air = 0.001 := rfl
  have hce : bdcCyl.contents.exhaust = 0 := rfl
  unfold Cylinder.fuel_particles Cylinder.air_particles Cylinder.exhaust_particles
  rw [hT, hcf, hca, hce]
  norm_num [ROOM_TEMP, boltzmann_constant, avogadro_constant, air_molar_mass,
    fuel_molar_mass, exhaust_molar_mass]

/-! ### C4 : the exhaust valve -/

lemma tdc_volume : engineCylGeometry.volume = Real.pi / 5000 := by
  unfold Cylinder.volume Cylinder.min_volume Cylinder.area
  rw [travel_at_tdc, engineCylGeometry_radius, engineCylGeometry_height,
    engineCylGeometry_crank_radius, engineCylGeometry_rod_length]
  ring

/-- Engine-geometry cylinder at rotation 0 whose previous-step volume is half
the current volume, with air and exhaust in the chamber. -/
def exhaustTestCyl : Cylinder :=
  { engineCylGeometry with
    previous_volume := Real.pi / 10000
    contents := { fuel := 0, air := 0.005, exhaust := 1 } }

lemma exhaustTestCyl_volume : exhaustTestCyl.volume = Real.pi / 5000 := by
  rw [Cylinder.volume_congr (c := exhaustTestCyl) (d := engineCylGeometry) rfl rfl rfl rfl rfl,
    tdc_volume]

lemma exhaustTestCyl_purge : atmospheric_pressure * exhaustTestCyl.volume /
    (exhaust_R * exhaustTestCyl.temperature) = 101325 / 421890000 * Real.pi := by
  have hT : exhaustTestCyl.temperature = ROOM_TEMP := rfl
  rw [exhaustTestCyl_volume, hT]
  unfold atmospheric_pressure exhaust_R ROOM_TEMP
  ring

/-- C4 counterexample: on a concrete state whose previous-step volume is half
the current volume, `exhaust` purges a positive mass equal to
`P_atm · V / (R_exhaust · T)` computed from the CURRENT volume — not
`P_atm · ΔV / (R_exhaust · T)` from the swept volume — and removes it from
the exhaust pool only: the air pool is left exactly unchanged although it is
positive, contradicting the claimed proportional removal. -/
theorem exhaust_counterexample :
    exhaustTestCyl.exhaust.contents.air = exhaustTestCyl.contents.air ∧
    0 < exhaustTestCyl.contents.air ∧
    exhaustTestCyl.contents.exhaust - exhaustTestCyl.exhaust.contents.exhaust =
      atmospheric_pressure * exhaustTestCyl.volume /
        (exhaust_R * exhaustTestCyl.temperature) ∧
    0 < exhaustTestCyl.contents.exhaust - exhaustTestCyl.exhaust.contents.exhaust ∧
    exhaustTestCyl.contents.exhaust - exhaustTestCyl.exhaust.contents.exhaust ≠
      atmospheric_pressure * (exhaustTestCyl.volume - exhaustTestCyl.previous_volume) /
        (exhaust_R * exhaustTestCyl.temperature) := by
  have hπ := Real.pi_pos
  have hπlt := Real.pi_lt_d2
  have hce : exhaustTestCyl.contents.exhaust = 1 := rfl
  have hpool : exhaustTestCyl.exhaust.contents.exhaust = 1 - 101325 / 421890000 * Real.pi := by
    rw [Cylinder.exhaust_contents_exhaust, hce, exhaustTestCyl_purge]
    rw [if_neg (by push_neg; nlinarith)]
  have hpurged : exhaustTestCyl.contents.exhaust - exhaustTestCyl.exhaust.contents.exhaust =
      101325 / 421890000 * Real.pi := by
    rw [hpool, hce]; ring
  have hdv : atmospheric_pressure * (exhaustTestCyl.volume - exhaustTestCyl.previous_volume) /
      (exhaust_R * exhaustTestCyl.temperature) = 101325 / 843780000 * Real.pi := by
    have hpv : exhaustTestCyl.previous_volume = Real.pi / 10000 := rfl
    have hT : exhaustTestCyl.temperature = ROOM_TEMP := rfl
    rw [exhaustTestCyl_volume, hpv, hT]
    unfold atmospheric_pressure exhaust_R ROOM_TEMP
    ring
  refine ⟨rfl, by norm_num [show exhaustTestCyl.contents.air = 0.005 from rfl], ?_, ?_, ?_⟩
  · rw [hpurged, exhaustTestCyl_purge]
  · rw [hpurged]; positivity
  · rw [hpurged, hdv]
    intro hcontra
    nlinarith

/-- C4 (amended): every `Cylinder.exhaust` call purges a mass equal to
atmospheric pressure × the CURRENT volume / (R_exhaust × temperature) — not
the swept volume since the previous step — removing it from the exhaust pool
only (fuel and air are untouched), clamped so the exhaust pool does not go
negative, and sets the temperature to exactly 373 K (273 + 100). -/
theorem exhaust_spec (c : Cylinder) :
    c.exhaust.contents.fuel = c.contents.fuel ∧
    c.exhaust.contents.air = c.contents.air ∧
    c.exhaust.contents.exhaust =
      max 0 (c.contents.exhaust -
        atmospheric_pressure * c.volume / (exhaust_R * c.temperature)) ∧
    c.exhaust.temperature = 273 + 100 := by
  refine ⟨rfl, rfl, ?_, rfl⟩
  rw [Cylinder.exhaust_contents_exhaust]
  rcases lt_or_le
      (c.contents.exhaust - atmospheric_pressure * c.volume / (exhaust_R * c.temperature)) 0
    with h | h
  · rw [if_pos h, max_eq_left h.le]
  · rw [if_neg (not_lt.mpr h), max_eq_right h]

/-! ### C8 : rigid shared shaft -/

lemma applyStageAction_velocity (c : Cylinder) (s : ℤ) (fv : ℝ) :
    (applyStageAction c s fv).crank_angular_velocity = c.crank_angular_velocity := by
  unfold applyStageAction
  split_ifs <;> rfl

lemma computerLoop_velocities (fv : ℝ) : ∀ (cs : List Cylinder) (sts fos : List ℤ),
    (computerLoop fv cs sts fos).1.map Cylinder.crank_angular_velocity =
      cs.map Cylinder.crank_angular_velocity := by
  intro cs
  induction cs with
  | nil => intro sts fos; cases sts <;> cases fos <;> rfl
  | cons c cs2 ih =>
      intro sts fos
      cases sts with
      | nil => rfl
      | cons st sts2 =>
          cases fos with
          | nil => rfl
          | cons fo fos2 =>
              show (computerLoop fv (c :: cs2) (st :: sts2) (fo :: fos2)).1.map _ = _
              unfold computerLoop
              dsimp only
              split_ifs with h
              · simp [ih]
              · simp [applyStageAction_velocity]

@[simp] lemma starterPhase_friction (e : Engine) (dt : ℝ) :
    (e.starterPhase dt).friction_coefficient = e.friction_coefficient := by
  unfold Engine.starterPhase; split_ifs <;> rfl

lemma starterPhase_velocities (e : Engine) (dt : ℝ) :
    (e.starterPhase dt).cylinders.map Cylinder.crank_angular_velocity =
      if e.starter_timer > 0 then
        (e.cylinders.map Cylinder.crank_angular_velocity).map
          (fun v => v + e.starter_torque / e.moment_of_inertia * dt)
      else e.cylinders.map Cylinder.crank_angular_velocity := by
  unfold Engine.starterPhase Engine.run_starter
  split_ifs with h
  · dsimp only
    rw [List.map_map, List.map_map]
    rfl
  · rfl

lemma do_computer_velocities (e : Engine) (dt : ℝ) :
    (e.do_computer dt).cylinders.map Cylinder.crank_angular_velocity =
      (e.starterPhase dt).cylinders.map Cylinder.crank_angular_velocity := by
  unfold Engine.do_computer
  dsimp only
  exact computerLoop_velocities _ _ _ _

@[simp] lemma do_computer_friction (e : Engine) (dt : ℝ) :
    (e.do_computer dt).friction_coefficient = e.friction_coefficient := by
  unfold Engine.do_computer
  dsimp only
  exact starterPhase_friction e dt

lemma engine_simulate_velocities (e : Engine) (dt : ℝ) :
    ∃ a : ℝ, (e.simulate dt).cylinders.map Cylinder.crank_angular_velocity =
      ((e.do_computer dt).cylinders.map Cylinder.crank_angular_velocity).map
        (fun v => (v + a * dt) * e.friction_coefficient) := by
  refine ⟨((e.do_computer dt).cylinders.map
        (Cylinder.crank_moment ∘ fun c => c.simulate dt)).sum /
      (e.do_computer dt).moment_of_inertia, ?_⟩
  unfold Engine.simulate
  dsimp only
  simp only [List.map_map]
  refine List.map_congr_left ?_
  intro c hc
  dsimp only [Function.comp]
  rw [Cylinder.simulate_crank_angular_velocity, do_computer_friction]

/-- All cylinders' angular-velocity values are numerically identical. -/
def sameShaftVelocity (e : Engine) : Prop :=
  ∀ v1 ∈ e.cylinders.map Cylinder.crank_angular_velocity,
    ∀ v2 ∈ e.cylinders.map Cylinder.crank_angular_velocity, v1 = v2

lemma velconst_map {l : List ℝ} (F : ℝ → ℝ) (h : ∀ x ∈ l, ∀ y ∈ l, x = y) :
    ∀ x ∈ l.map F, ∀ y ∈ l.map F, x = y := by
  intro x hx y hy
  obtain ⟨u, hu, rfl⟩ := List.mem_map.mp hx
  obtain ⟨w, hw, rfl⟩ := List.mem_map.mp hy
  rw [h u hu w hw]

lemma sameShaft_applyOp (e : Engine) (op : EngineOp) (h : sameShaftVelocity e) :
    sameShaftVelocity (e.applyOp op) := by
  cases op with
  | start => exact h
  | simulate dt =>
      intro v1 h1 v2 h2
      obtain ⟨a, ha⟩ := engine_simulate_velocities e dt
      rw [show Engine.applyOp e (.simulate dt) = e.simulate dt from rfl] at h1 h2
      rw [ha, do_computer_velocities, starterPhase_velocities] at h1 h2
      split_ifs at h1 h2 with hs
      · exact velconst_map _ (velconst_map _ h) _ h1 _ h2
      · exact velconst_map _ h _ h1 _ h2

lemma sameShaft_init : sameShaftVelocity initEngine := by
  intro v1 h1 v2 h2
  have hv : initEngine.cylinders.map Cylinder.crank_angular_velocity = [0, 0, 0, 0] := rfl
  rw [hv] at h1 h2
  simp only [List.mem_cons, List.not_mem_nil, or_false] at h1 h2
  rcases h1 with h1 | h1 | h1 | h1 <;> rcases h2 with h2 | h2 | h2 | h2 <;> rw [h1, h2]

/-- C3-adjacent starter invariant is not claimed here; this is C8: for a
freshly constructed Engine, after any sequence of `start()` and
`simulate(dt)` calls the `crank_angular_velocity` values of all cylinders are
numerically identical — the starter torque, the net-torque integration and
the friction decay are each applied identically to every cylinder. -/
theorem shared_shaft_velocities (ops : List EngineOp) :
    sameShaftVelocity (runEngine initEngine ops) := by
  suffices h : ∀ (l : List EngineOp) (e : Engine), sameShaftVelocity e →
      sameShaftVelocity (runEngine e l) from h ops initEngine sameShaft_init
  intro l
  induction l with
  | nil => intro e he; exact he
  | cons x xs ih => intro e he; exact ih (e.applyOp x) (sameShaft_applyOp e x he)

/-! ### C9 : throttle / idle-governed injection -/

@[simp] lemma starterPhase_idle_rpm (e : Engine) (dt : ℝ) :
    (e.starterPhase dt).idle_rpm = e.idle_rpm := by
  unfold Engine.starterPhase; split_ifs <;> rfl

@[simp] lemma starterPhase_idle_fuel (e : Engine) (dt : ℝ) :
    (e.starterPhase dt).idle_fuel_volume_per_cycle = e.idle_fuel_volume_per_cycle := by
  unfold Engine.starterPhase; split_ifs <;> rfl

@[simp] lemma starterPhase_fuel_per_cycle (e : Engine) (dt : ℝ) :
    (e.starterPhase dt).fuel_volume_per_cycle = e.fuel_volume_per_cycle := by
  unfold Engine.starterPhase; split_ifs <;> rfl

@[simp] lemma starterPhase_throttle (e : Engine) (dt : ℝ) :
    (e.starterPhase dt).throttle = e.throttle := by
  unfold Engine.starterPhase; split_ifs <;> rfl

lemma starterPhase_get_map {β : Type} (p : Cylinder → β)
    (hp : ∀ (c : Cylinder) (v : ℝ), p { c with crank_angular_velocity := v } = p c)
    (e : Engine) (dt : ℝ) (i : ℕ) :
    ((e.starterPhase dt).cylinders.get? i).map p = (e.cylinders.get? i).map p := by
  unfold Engine.starterPhase Engine.run_starter
  split_ifs with h
  · dsimp only
    rw [List.get?_map]
    cases e.cylinders.get? i with
    | none => rfl
    | some c => exact congrArg some (hp c _)
  · rfl

lemma applyStageAction_fuel_air (c : Cylinder) (s : ℤ) (fv : ℝ) :
    ((applyStageAction c s fv).contents.fuel, (applyStageAction c s fv).contents.air) =
      if s = 0 then (c.contents.fuel + fv, c.contents.air + fv * stoich_air_fuel)
      else (c.contents.fuel, c.contents.air) := by
  unfold applyStageAction
  split_ifs <;> rfl

lemma computerLoop_fuel_air (fv : ℝ) : ∀ (cs : List Cylinder) (sts fos : List ℤ) (i : ℕ),
    (((computerLoop fv cs sts fos).1.get? i).map (fun c => (c.contents.fuel, c.contents.air)) =
      (cs.get? i).map (fun c => (c.contents.fuel, c.contents.air))) ∨
    (((computerLoop fv cs sts fos).1.get? i).map (fun c => (c.contents.fuel, c.contents.air)) =
      (cs.get? i).map (fun c =>
        (c.contents.fuel + fv, c.contents.air + fv * stoich_air_fuel))) := by
  intro cs
  induction cs with
  | nil => intro sts fos i; left; cases sts <;> cases fos <;> rfl
  | cons c cs2 ih =>
      intro sts fos i
      cases sts with
      | nil => left; rfl
      | cons st sts2 =>
          cases fos with
          | nil => left; rfl
          | cons fo fos2 =>
              unfold computerLoop
              dsimp only
              split_ifs with h
              · cases i with
                | zero => left; rfl
                | succ j => simpa using ih sts2 fos2 j
              · cases i with
                | zero =>
                    by_cases hs : stageOf fo c.crank_rotation = 0
                    · right
                      have hp := applyStageAction_fuel_air c (stageOf fo c.crank_rotation) fv
                      rw [if_pos hs] at hp
                      exact congrArg some hp
                    · left
                      have hp := applyStageAction_fuel_air c (stageOf fo c.crank_rotation) fv
                      rw [if_neg hs] at hp
                      exact congrArg some hp
                | succ j => left; rfl

/-- C9: in every `Engine.do_computer` pass (the computer stage of
`Engine.simulate`), each cylinder's fuel/air pools are either untouched or
increased by exactly the governed dose: the idle fuel volume whenever the
average rpm (read after the starter phase) is below the idle threshold —
regardless of the throttle value — and `fuel_volume_per_cycle × throttle`
otherwise, with the air dose the fuel dose times the stoichiometric ratio. -/
theorem idle_governor (e : Engine) (dt : ℝ) (i : ℕ) :
    (((e.do_computer dt).cylinders.get? i).map (fun c => (c.contents.fuel, c.contents.air)) =
      (e.cylinders.get? i).map (fun c => (c.contents.fuel, c.contents.air))) ∨
    (((e.do_computer dt).cylinders.get? i).map (fun c => (c.contents.fuel, c.contents.air)) =
      (e.cylinders.get? i).map (fun c =>
        (c.contents.fuel +
          (if (e.starterPhase dt).rpm < e.idle_rpm then e.idle_fuel_volume_per_cycle
            else e.fuel_volume_per_cycle * e.throttle),
          c.contents.air +
          (if (e.starterPhase dt).rpm < e.idle_rpm then e.idle_fuel_volume_per_cycle
            else e.fuel_volume_per_cycle * e.throttle) * stoich_air_fuel))) := by
  have hfv : (e.starterPhase dt).governedFuelVolume =
      (if (e.starterPhase dt).rpm < e.idle_rpm then e.idle_fuel_volume_per_cycle
        else e.fuel_volume_per_cycle * e.throttle) := by
    unfold Engine.governedFuelVolume
    rw [starterPhase_idle_rpm, starterPhase_idle_fuel, starterPhase_fuel_per_cycle,
      starterPhase_throttle]
  have hdc : (e.do_computer dt).cylinders =
      (computerLoop (e.starterPhase dt).governedFuelVolume (e.starterPhase dt).cylinders
        (e.starterPhase dt).cylinder_stages (e.starterPhase dt).fire_order).1 := rfl
  rw [hdc, ← hfv]
  rcases computerLoop_fuel_air ((e.starterPhase dt).governedFuelVolume)
      (e.starterPhase dt).cylinders (e.starterPhase dt).cylinder_stages
      (e.starterPhase dt).fire_order i with h | h
  · left
    rw [h]
    exact starterPhase_get_map (fun c => (c.contents.fuel, c.contents.air))
      (fun c v => rfl) e dt i
  · right
    rw [h]
    exact starterPhase_get_map (fun c =>
        (c.contents.fuel + (e.starterPhase dt).governedFuelVolume,
          c.contents.air + (e.starterPhase dt).governedFuelVolume * stoich_air_fuel))
      (fun c v => rfl) e dt i

/-! ### C3 : the break inside the match exits the cylinder loop -/

lemma stageOf_q_pi (fo : ℤ) (q : ℝ) (n : ℤ) (h0 : 0 ≤ q) (h4 : q < 4) (hn : ⌊q⌋ = n) :
    stageOf fo (q * Real.pi) = (fo + n) % 4 := by
  have hπ : (0 : ℝ) < Real.pi := Real.pi_pos
  unfold stageOf pymod
  have h1 : q * Real.pi / (4 * Real.pi) = q / 4 := by
    field_simp
    ring
  have h2 : ⌊q / 4⌋ = 0 := by
    rw [Int.floor_eq_zero_iff]
    exact ⟨by positivity, by rw [div_lt_one (by norm_num)]; exact h4⟩
  rw [h1, h2]
  have h3 : (q * Real.pi - 4 * Real.pi * ((0 : ℤ) : ℝ)) / Real.pi = q := by
    push_cast
    field_simp
  rw [h3, hn]

lemma initRotation_eq (i : ℝ) : initRotation i = (i + 1 / 8) * Real.pi := by
  unfold initRotation
  ring

lemma stage_init0 : stageOf 0 (initRotation 0) = 0 := by
  rw [initRotation_eq,
    stageOf_q_pi 0 ((0 : ℝ) + 1 / 8) 0 (by norm_num) (by norm_num)
      (by norm_num [Int.floor_eq_iff])]
  decide

lemma stage_init1 : stageOf 2 (initRotation 1) = 3 := by
  rw [initRotation_eq,
    stageOf_q_pi 2 ((1 : ℝ) + 1 / 8) 1 (by norm_num) (by norm_num)
      (by norm_num [Int.floor_eq_iff])]
  decide

lemma stage_init2 : stageOf 3 (initRotation 2) = 1 := by
  rw [initRotation_eq,
    stageOf_q_pi 3 ((2 : ℝ) + 1 / 8) 2 (by norm_num) (by norm_num)
      (by norm_num [Int.floor_eq_iff])]
  decide

lemma stage_init3 : stageOf 1 (initRotation 3) = 0 := by
  rw [initRotation_eq,
    stageOf_q_pi 1 ((3 : ℝ) + 1 / 8) 3 (by norm_num) (by norm_num)
      (by norm_num [Int.floor_eq_iff])]
  decide

lemma applyStageAction_exhaust_fuel (c : Cylinder) (fv : ℝ) :
    (applyStageAction c 3 fv).contents.fuel = c.contents.fuel := by
  unfold applyStageAction
  norm_num

/-- C3: the stroke-transition rule is NOT evaluated for every cylinder: on
the very first computer pass of a fresh engine, cylinder 1 recomputes stage
EXHAUST and fires, and the `break` ending its match arm exits the whole
cylinder loop, so cylinders 2 and 3 — whose freshly computed stages 1 and 0
differ from their stored stages 3 and 1 — are never examined: the stored
stages stay [0, 3, 3, 1] instead of being updated, and no injection reaches
cylinder 3 although it computed the INTAKE stage. -/
theorem stroke_break_skips_cylinders :
    (initEngine.do_computer (1 / 60)).cylinder_stages = [0, 3, 3, 1] ∧
    stageOf 3 (initRotation 2) = 1 ∧
    stageOf 1 (initRotation 3) = 0 ∧
    (initEngine.do_computer (1 / 60)).cylinders.map (fun c => c.contents.fuel) =
      [0, 0, 0, 0] := by
  have hsp : initEngine.starterPhase (1 / 60) = initEngine := by
    unfold Engine.starterPhase
    exact if_neg (by rw [show initEngine.starter_timer = 0 from rfl]; norm_num)
  have hc : initEngine.cylinders =
      [{ engineCylGeometry with crank_rotation := initRotation 0 },
       { engineCylGeometry with crank_rotation := initRotation 1 },
       { engineCylGeometry with crank_rotation := initRotation 2 },
       { engineCylGeometry with crank_rotation := initRotation 3 }] := rfl
  have hstg : initEngine.cylinder_stages = [0, 2, 3, 1] := rfl
  have hfo : initEngine.fire_order = [0, 2, 3, 1] := rfl
  have hloop : computerLoop initEngine.governedFuelVolume initEngine.cylinders
      initEngine.cylinder_stages initEngine.fire_order =
      ([{ engineCylGeometry with crank_rotation := initRotation 0 },
        applyStageAction { engineCylGeometry with crank_rotation := initRotation 1 } 3
          initEngine.governedFuelVolume,
        { engineCylGeometry with crank_rotation := initRotation 2 },
        { engineCylGeometry with crank_rotation := initRotation 3 }],
       [0, 3, 3, 1]) := by
    rw [hc, hstg, hfo]
    simp only [computerLoop]
    rw [stage_init0, stage_init1]
    norm_num
  have hdc : initEngine.do_computer (1 / 60) =
      { initEngine with
        cylinders := (computerLoop initEngine.governedFuelVolume initEngine.cylinders
          initEngine.cylinder_stages initEngine.fire_order).1
        cylinder_stages := (computerLoop initEngine.governedFuelVolume initEngine.cylinders
          initEngine.cylinder_stages initEngine.fire_order).2 } := by
    unfold Engine.do_computer
    rw [hsp]
  refine ⟨?_, stage_init2, stage_init3, ?_⟩
  · rw [hdc]
    rw [hloop]
  · rw [hdc]
    rw [show ({ initEngine with
        cylinders := (computerLoop initEngine.governedFuelVolume initEngine.cylinders
          initEngine.cylinder_stages initEngine.fire_order).1
        cylinder_stages := (computerLoop initEngine.governedFuelVolume initEngine.cylinders
          initEngine.cylinder_stages initEngine.fire_order).2 } : Engine).cylinders =
      (computerLoop initEngine.governedFuelVolume initEngine.cylinders
        initEngine.cylinder_stages initEngine.fire_order).1 from rfl]
    rw [hloop]
    simp [applyStageAction_exhaust_fuel]
